import Mathlib

/-!
Verification of the module-name extension of wasmer's C API
(`src/lib/c-api/src/wasm_c_api/wasmer.rs`): the two entry points
`wasm_module_name` and `wasm_module_set_name`, shallowly embedded as
state-passing Lean functions over an explicit model of the shared-ownership
state of the underlying `Module`.
-/

namespace WasmerCApi

/-- One byte of a host buffer (a Rust `u8` value, in the range `0 ≤ b ≤ 255`). -/
abbrev Byte := Nat

/-- A UTF-8 continuation byte: `0x80 ≤ b ≤ 0xBF`. -/
def isUtf8Cont (b : Byte) : Bool :=
  0x80 ≤ b && b ≤ 0xBF

/-- Embedding of the validation performed by Rust's `str::from_utf8`:
`validUtf8 bs = true` iff `bs` is a well-formed UTF-8 byte sequence
(no overlong encodings, no surrogate code points, nothing above U+10FFFF). -/
def validUtf8 : List Byte → Bool
  | [] => true
  | b0 :: rest =>
    if b0 ≤ 0x7F then
      validUtf8 rest
    else if 0xC2 ≤ b0 ∧ b0 ≤ 0xDF then
      match rest with
      | b1 :: rest1 => isUtf8Cont b1 && validUtf8 rest1
      | [] => false
    else if b0 = 0xE0 then
      match rest with
      | b1 :: b2 :: rest2 =>
        (0xA0 ≤ b1 && b1 ≤ 0xBF) && isUtf8Cont b2 && validUtf8 rest2
      | _ => false
    else if 0xE1 ≤ b0 ∧ b0 ≤ 0xEC then
      match rest with
      | b1 :: b2 :: rest2 => isUtf8Cont b1 && isUtf8Cont b2 && validUtf8 rest2
      | _ => false
    else if b0 = 0xED then
      match rest with
      | b1 :: b2 :: rest2 =>
        (0x80 ≤ b1 && b1 ≤ 0x9F) && isUtf8Cont b2 && validUtf8 rest2
      | _ => false
    else if 0xEE ≤ b0 ∧ b0 ≤ 0xEF then
      match rest with
      | b1 :: b2 :: rest2 => isUtf8Cont b1 && isUtf8Cont b2 && validUtf8 rest2
      | _ => false
    else if b0 = 0xF0 then
      match rest with
      | b1 :: b2 :: b3 :: rest3 =>
        (0x90 ≤ b1 && b1 ≤ 0xBF) && isUtf8Cont b2 && isUtf8Cont b3 &&
          validUtf8 rest3
      | _ => false
    else if 0xF1 ≤ b0 ∧ b0 ≤ 0xF3 then
      match rest with
      | b1 :: b2 :: b3 :: rest3 =>
        isUtf8Cont b1 && isUtf8Cont b2 && isUtf8Cont b3 && validUtf8 rest3
      | _ => false
    else if b0 = 0xF4 then
      match rest with
      | b1 :: b2 :: b3 :: rest3 =>
        (0x80 ≤ b1 && b1 ≤ 0x8F) && isUtf8Cont b2 && isUtf8Cont b3 &&
          validUtf8 rest3
      | _ => false
    else
      false

/-- Modelled from the spec: the inner compiled `Module` object (wasmer's
`Module`, an external collaborator of this file's sources).  The spec treats it
as opaque except for an *optional Name* ("a valid UTF-8 text value or absent");
the name is stored here as its UTF-8 byte sequence, since both entry points
exchange it with the host byte-for-byte. -/
structure Module where
  name : Option (List Byte)
deriving DecidableEq

/-- Modelled from the spec: `Module::set_name` — "If exclusivity holds, the
name field is atomically replaced with the decoded text and the operation
returns true."  State-passing form: returns the updated module and the
success flag. -/
def Module.set_name (m : Module) (n : List Byte) : Module × Bool :=
  ({ m with name := some n }, true)

/-- Shallow embedding of `std::sync::Arc<T>`: the pointed-to value together
with its strong reference count.  `Arc::get_mut` yields mutable access iff the
calling handle is the sole live reference, i.e. iff the strong count is
exactly one. -/
structure Arc (α : Type) where
  value : α
  strong_count : Nat
deriving DecidableEq

/-- The C-API module handle: `wasm_module_t { inner: Arc<Module> }`. -/
structure wasm_module_t where
  inner : Arc Module
deriving DecidableEq

/-- The boundary byte vector `wasm_name_t` (= `wasm_byte_vec_t`): a
`(data, size)` pair.  `data = none` models a null data pointer; `data = some
bs` models a non-null pointer to the allocated bytes `bs`. -/
structure wasm_name_t where
  data : Option (List Byte)
  size : Nat
deriving DecidableEq

/-- Modelled from the spec: `wasm_name_t::into_slice` (defined in the
repository's `wasm_c_api::types`, outside these sources).  Per the spec's
ByteVector conversion: a null-data buffer yields nothing ("no name supplied",
"NameMutator treats null as an input error"); otherwise the buffer's `size`
bytes are read from the allocation. -/
def wasm_name_t.into_slice (v : wasm_name_t) : Option (List Byte) :=
  v.data.map (fun bs => bs.take v.size)

/-- Embedding of `wasm_module_name`: writes the module's name into the `out`
byte vector.  If the module has no name, `out.data` is set to null and
`out.size` to `0`; otherwise `out` becomes a fresh byte-for-byte copy of the
name's UTF-8 bytes (`name.as_bytes().to_vec().into()`).  The function takes
the module by shared reference and fully overwrites `out`, so it is modelled
as the value the out-parameter holds on return. -/
def wasm_module_name (module : wasm_module_t) : wasm_name_t :=
  match module.inner.value.name with
  | none => { data := none, size := 0 }
  | some name => { data := some name, size := name.length }

/-- State-passing form of one `wasm_module_name` call: the module is borrowed
immutably (`&wasm_module_t`), so the module the caller holds after the call is
the module it held before; the out-parameter is completely overwritten with
the result. -/
def wasm_module_name_call (m : wasm_module_t) : wasm_module_t × wasm_name_t :=
  (m, wasm_module_name m)

/-- Iteration of `wasm_module_name`: `n` successive calls on the same handle,
threading the module state and collecting the outputs. -/
def wasm_module_name_iter : Nat → wasm_module_t → wasm_module_t × List wasm_name_t
  | 0, m => (m, [])
  | Nat.succ k, m =>
    let r := wasm_module_name_call m
    let rs := wasm_module_name_iter k r.1
    (rs.1, r.2 :: rs.2)

/-- Embedding of `wasm_module_set_name`, state-passing: returns the module the
caller holds after the call and the boolean result.  Mirrors the source:
`name.into_slice()` (null ⇒ `false`), then `str::from_utf8` (invalid ⇒
`false`), then `Arc::get_mut(&mut module.inner)` (shared ⇒ `false`), else the
inner `Module::set_name` is called on the exclusively-owned module. -/
def wasm_module_set_name (module : wasm_module_t) (name : wasm_name_t) :
    wasm_module_t × Bool :=
  match name.into_slice with
  | none => (module, false)
  | some bytes =>
    if validUtf8 bytes then
      if module.inner.strong_count = 1 then
        let r := Module.set_name module.inner.value bytes
        ({ inner := { value := r.1, strong_count := module.inner.strong_count } },
          r.2)
      else
        (module, false)
    else
      (module, false)

/-- A successful `wasm_module_set_name` call can only have passed every check:
the buffer was non-null, its bytes were valid UTF-8, and the handle was the
sole live reference. -/
theorem wasm_module_set_name_true_inv (m : wasm_module_t) (buf : wasm_name_t)
    (hok : (wasm_module_set_name m buf).2 = true) :
    ∃ bytes, buf.into_slice = some bytes ∧ validUtf8 bytes = true ∧
      m.inner.strong_count = 1 := by
  unfold wasm_module_set_name at hok
  cases hsl : buf.into_slice with
  | none => rw [hsl] at hok; simp at hok
  | some bytes =>
    rw [hsl] at hok
    by_cases hv : validUtf8 bytes = true
    · by_cases hc : m.inner.strong_count = 1
      · exact ⟨bytes, rfl, hv, hc⟩
      · simp [hv, hc] at hok
    · simp [hv] at hok

/-- On a non-null, valid, exclusively-owned call, `wasm_module_set_name`
computes the fully updated handle together with `true`. -/
theorem wasm_module_set_name_eq (m : wasm_module_t) (buf : wasm_name_t)
    (bytes : List Byte) (hslice : buf.into_slice = some bytes)
    (hvalid : validUtf8 bytes = true) (hexcl : m.inner.strong_count = 1) :
    wasm_module_set_name m buf =
      (⟨⟨⟨some bytes⟩, m.inner.strong_count⟩⟩, true) := by
  unfold wasm_module_set_name
  rw [hslice]
  simp [hvalid, hexcl, Module.set_name]

/-- C1: for every module handle and every candidate buffer whose bytes decode
as valid UTF-8, if the calling handle is the sole live reference to the module,
then `wasm_module_set_name` replaces the module's name with the decoded text
and returns `true`. -/
theorem set_name_exclusive_valid_succeeds (m : wasm_module_t)
    (buf : wasm_name_t) (bytes : List Byte)
    (hslice : buf.into_slice = some bytes)
    (hvalid : validUtf8 bytes = true)
    (hexcl : m.inner.strong_count = 1) :
    (wasm_module_set_name m buf).2 = true ∧
      (wasm_module_set_name m buf).1.inner.value.name = some bytes := by
  rw [wasm_module_set_name_eq m buf bytes hslice hvalid hexcl]
  exact ⟨rfl, rfl⟩

/-- Witness for C1: setting the name `"hello"` on an exclusively-owned,
initially nameless module returns `true` and stores the five bytes. -/
theorem set_name_exclusive_valid_succeeds_witness :
    (wasm_module_set_name ⟨⟨⟨none⟩, 1⟩⟩
        ⟨some [104, 101, 108, 108, 111], 5⟩).2 = true ∧
      (wasm_module_set_name ⟨⟨⟨none⟩, 1⟩⟩
        ⟨some [104, 101, 108, 108, 111], 5⟩).1.inner.value.name =
        some [104, 101, 108, 108, 111] :=
  set_name_exclusive_valid_succeeds ⟨⟨⟨none⟩, 1⟩⟩
    ⟨some [104, 101, 108, 108, 111], 5⟩ [104, 101, 108, 108, 111]
    (by decide) (by decide) (by decide)

/-- C2: for every module shared with at least one other live handle (strong
count at least two) and every candidate buffer, valid or not,
`wasm_module_set_name` returns `false` and the handle's module state is left
completely unmodified. -/
theorem set_name_shared_fails (m : wasm_module_t) (buf : wasm_name_t)
    (hshared : 2 ≤ m.inner.strong_count) :
    wasm_module_set_name m buf = (m, false) := by
  have hne : ¬ m.inner.strong_count = 1 := by omega
  unfold wasm_module_set_name
  cases hsl : buf.into_slice with
  | none => rfl
  | some bytes =>
    by_cases hv : validUtf8 bytes = true
    · simp [hv, hne]
    · simp [hv]

/-- Witness for C2: with a strong count of two, setting the valid name `"h"`
fails and leaves the module untouched. -/
theorem set_name_shared_fails_witness :
    wasm_module_set_name ⟨⟨⟨none⟩, 2⟩⟩ ⟨some [104], 1⟩ =
      (⟨⟨⟨none⟩, 2⟩⟩, false) :=
  set_name_shared_fails ⟨⟨⟨none⟩, 2⟩⟩ ⟨some [104], 1⟩ (by decide)

/-- C3: for every module and every candidate buffer that is null or whose
bytes are not valid UTF-8, `wasm_module_set_name` returns `false` and the
module is left completely unchanged, regardless of the module's ownership
state. -/
theorem set_name_invalid_fails (m : wasm_module_t) (buf : wasm_name_t)
    (hbad : buf.into_slice = none ∨
      ∃ bytes, buf.into_slice = some bytes ∧ validUtf8 bytes = false) :
    wasm_module_set_name m buf = (m, false) := by
  unfold wasm_module_set_name
  rcases hbad with hnull | ⟨bytes, hsl, hinval⟩
  · rw [hnull]
  · rw [hsl]
    simp [hinval]

/-- Witness for C3: the single byte `0xFF` is not valid UTF-8, so setting it
fails even on an exclusively-owned module that already carries a name, and
the prior name is preserved. -/
theorem set_name_invalid_fails_witness :
    wasm_module_set_name ⟨⟨⟨some [104]⟩, 1⟩⟩ ⟨some [0xFF], 1⟩ =
      (⟨⟨⟨some [104]⟩, 1⟩⟩, false) :=
  set_name_invalid_fails ⟨⟨⟨some [104]⟩, 1⟩⟩ ⟨some [0xFF], 1⟩
    (Or.inr ⟨[0xFF], by decide, by decide⟩)

/-- C4: for every module without a name, `wasm_module_name` writes the
canonical absent representation to the out-parameter: data pointer null and
size `0`. -/
theorem get_name_absent (m : wasm_module_t)
    (h : m.inner.value.name = none) :
    wasm_module_name m = { data := none, size := 0 } := by
  unfold wasm_module_name
  rw [h]

/-- Witness for C4: reading the name of a nameless module yields `(null, 0)`. -/
theorem get_name_absent_witness :
    wasm_module_name ⟨⟨⟨none⟩, 3⟩⟩ = { data := none, size := 0 } :=
  get_name_absent ⟨⟨⟨none⟩, 3⟩⟩ (by decide)

/-- C5: round trip — if `wasm_module_set_name` succeeds on a buffer holding
the bytes `bytes`, a subsequent `wasm_module_name` on the updated handle
yields a byte vector whose contents are exactly `bytes`. -/
theorem set_then_get_round_trip (m : wasm_module_t) (buf : wasm_name_t)
    (bytes : List Byte) (hslice : buf.into_slice = some bytes)
    (hok : (wasm_module_set_name m buf).2 = true) :
    wasm_module_name (wasm_module_set_name m buf).1 =
      { data := some bytes, size := bytes.length } := by
  obtain ⟨bytes', hsl', hv', hc'⟩ := wasm_module_set_name_true_inv m buf hok
  have hbeq : bytes' = bytes := by
    rw [hslice] at hsl'
    exact (Option.some.injEq _ _ ▸ hsl').symm ▸ rfl
  subst hbeq
  rw [wasm_module_set_name_eq m buf bytes' hsl' hv' hc']
  rfl

/-- Witness for C5: after successfully naming a module `"hello"`, reading the
name back yields exactly the bytes of `"hello"` with size `5`. -/
theorem set_then_get_round_trip_witness :
    wasm_module_name
        (wasm_module_set_name ⟨⟨⟨none⟩, 1⟩⟩
          ⟨some [104, 101, 108, 108, 111], 5⟩).1 =
      { data := some [104, 101, 108, 108, 111], size := 5 } :=
  set_then_get_round_trip ⟨⟨⟨none⟩, 1⟩⟩ ⟨some [104, 101, 108, 108, 111], 5⟩
    [104, 101, 108, 108, 111] (by decide) (by decide)

/-- C6: for every module whose name is present, `wasm_module_name` produces a
byte vector holding a byte-for-byte copy of the name with matching size; the
function is total, so it has no failure path for any module. -/
theorem get_name_present (m : wasm_module_t) (n : List Byte)
    (h : m.inner.value.name = some n) :
    wasm_module_name m = { data := some n, size := n.length } := by
  unfold wasm_module_name
  rw [h]

/-- Witness for C6: reading the one-byte name `"h"` yields that byte with
size `1`. -/
theorem get_name_present_witness :
    wasm_module_name ⟨⟨⟨some [104]⟩, 3⟩⟩ =
      { data := some [104], size := 1 } :=
  get_name_present ⟨⟨⟨some [104]⟩, 3⟩⟩ [104] (by decide)

/-- C7: `wasm_module_name` is read-only and safely repeatable — any number of
successive calls leaves the module (and hence every other handle's view of
the shared object) unchanged, and every call produces the same output. -/
theorem get_name_read_only (m : wasm_module_t) (k : Nat) :
    wasm_module_name_iter k m = (m, List.replicate k (wasm_module_name m)) := by
  induction k with
  | zero => rfl
  | succ j ih =>
    simp only [wasm_module_name_iter, wasm_module_name_call, ih]
    rfl

/-- C8: idempotence — if a `wasm_module_set_name` call succeeds, repeating the
identical call on the resulting handle returns `true` again and leaves the
module state exactly as the first call left it. -/
theorem set_name_idempotent (m : wasm_module_t) (buf : wasm_name_t)
    (hok : (wasm_module_set_name m buf).2 = true) :
    wasm_module_set_name (wasm_module_set_name m buf).1 buf =
      ((wasm_module_set_name m buf).1, true) := by
  obtain ⟨bytes, hsl, hv, hc⟩ := wasm_module_set_name_true_inv m buf hok
  rw [wasm_module_set_name_eq m buf bytes hsl hv hc]
  rw [wasm_module_set_name_eq ⟨⟨⟨some bytes⟩, m.inner.strong_count⟩⟩ buf bytes
    hsl hv hc]

/-- Witness for C8: repeating the successful `"hello"` rename returns `true`
again and changes nothing. -/
theorem set_name_idempotent_witness :
    wasm_module_set_name
        (wasm_module_set_name ⟨⟨⟨none⟩, 1⟩⟩
          ⟨some [104, 101, 108, 108, 111], 5⟩).1
        ⟨some [104, 101, 108, 108, 111], 5⟩ =
      ((wasm_module_set_name ⟨⟨⟨none⟩, 1⟩⟩
          ⟨some [104, 101, 108, 108, 111], 5⟩).1, true) :=
  set_name_idempotent ⟨⟨⟨none⟩, 1⟩⟩ ⟨some [104, 101, 108, 108, 111], 5⟩
    (by decide)

/-- C9: the empty string is a legal name distinct from absent — on an
exclusively-owned module, setting a zero-length but non-null buffer returns
`true`, and a subsequent read yields a zero-length, non-null byte vector
rather than the `(null, 0)` absent representation. -/
theorem set_empty_name (m : wasm_module_t)
    (hexcl : m.inner.strong_count = 1) :
    (wasm_module_set_name m ⟨some [], 0⟩).2 = true ∧
      wasm_module_name (wasm_module_set_name m ⟨some [], 0⟩).1 =
        { data := some [], size := 0 } := by
  rw [wasm_module_set_name_eq m ⟨some [], 0⟩ [] (by rfl) (by rfl) hexcl]
  exact ⟨rfl, rfl⟩

/-- Witness for C9: setting the empty name on an exclusively-owned module
succeeds and reads back as a non-null, zero-length vector. -/
theorem set_empty_name_witness :
    (wasm_module_set_name ⟨⟨⟨none⟩, 1⟩⟩ ⟨some [], 0⟩).2 = true ∧
      wasm_module_name (wasm_module_set_name ⟨⟨⟨none⟩, 1⟩⟩ ⟨some [], 0⟩).1 =
        { data := some [], size := 0 } :=
  set_empty_name ⟨⟨⟨none⟩, 1⟩⟩ (by decide)

/-- C10: determinism of reading — `wasm_module_name` is a pure function of the
module's current name: any two handles (in particular the same handle read
twice with no intervening mutation) whose modules carry the same name produce
byte vectors with identical data and identical size. -/
theorem get_name_deterministic (m1 m2 : wasm_module_t)
    (h : m1.inner.value.name = m2.inner.value.name) :
    wasm_module_name m1 = wasm_module_name m2 := by
  unfold wasm_module_name
  rw [h]

/-- Witness for C10: two handles with different strong counts but the same
stored name read back identical byte vectors. -/
theorem get_name_deterministic_witness :
    wasm_module_name ⟨⟨⟨some [104]⟩, 1⟩⟩ =
      wasm_module_name ⟨⟨⟨some [104]⟩, 7⟩⟩ :=
  get_name_deterministic ⟨⟨⟨some [104]⟩, 1⟩⟩ ⟨⟨⟨some [104]⟩, 7⟩⟩ (by decide)

end WasmerCApi
